import Mathlib

/-!
Shallow embedding of the OpenLibrary search application
(src/components/datafetching.tsx and src/book/[id]/page.tsx).

Strings are Lean `String`s; JavaScript `undefined`/absent optional fields
become `Option`; network effects are made explicit: a fetch function is an
oracle argument, and each embedded operation also returns the list of URLs
it requests.  JavaScript truthiness on numbers (0 is falsy) and on strings
(the empty string is falsy) is modelled explicitly at each use site.
-/

namespace LibrarySearch

/-- The four query modes of the search view
(`"title" | "author" | "q" | "authors"` in datafetching.tsx). -/
inductive QueryType where
  | title
  | author
  | q
  | authors
deriving DecidableEq

/-- The string interpolated for a query mode (its TypeScript literal). -/
def queryTypeName : QueryType → String
  | QueryType.title => "title"
  | QueryType.author => "author"
  | QueryType.q => "q"
  | QueryType.authors => "authors"

/-- Apostrophe character, one of the characters `encodeURIComponent`
leaves unescaped. -/
def apostropheChar : Char := Char.ofNat 39

/-- Characters JavaScript `encodeURIComponent` leaves unescaped:
`A-Z a-z 0-9 - _ . ! ~ * ' ( )`. -/
def isUnescapedEC (c : Char) : Bool :=
  c.isAlpha || c.isDigit || c = '-' || c = '_' || c = '.' || c = '!' ||
  c = '~' || c = '*' || c = apostropheChar || c = '(' || c = ')'

/-- Uppercase hexadecimal digit for `n < 16`. -/
def hexUpper (n : Nat) : Char :=
  if n < 10 then Char.ofNat (48 + n) else Char.ofNat (55 + n)

/-- Percent-escape of one byte, e.g. 32 becomes `%20`. -/
def percentByte (b : Nat) : List Char :=
  ['%', hexUpper (b / 16), hexUpper (b % 16)]

/-- UTF-8 bytes of a character, as natural numbers. -/
def utf8Bytes (c : Char) : List Nat :=
  let n := c.toNat
  if n < 128 then [n]
  else if n < 2048 then [192 + n / 64, 128 + n % 64]
  else if n < 65536 then [224 + n / 4096, 128 + (n / 64) % 64, 128 + n % 64]
  else [240 + n / 262144, 128 + (n / 4096) % 64, 128 + (n / 64) % 64,
        128 + n % 64]

/-- JavaScript `encodeURIComponent`: unescaped characters pass through,
every other character is replaced by the percent-escapes of its UTF-8
bytes. -/
def encodeURIComponent (s : String) : String :=
  String.mk (s.data.flatMap fun c =>
    if isUnescapedEC c then [c] else (utf8Bytes c).flatMap percentByte)

/-- A search result record (the `Book` type of datafetching.tsx).
All fields except `key` are optional in the source. -/
structure Book where
  key : String
  title : Option String
  name : Option String
  author_name : Option (List String)
  first_publish_year : Option Nat
  cover_i : Option Nat
  language : Option (List String)
  publisher : Option (List String)
  number_of_pages_median : Option Nat
  isbn : Option (List String)
deriving DecidableEq

/-- A search response body: `res.data` with its optional `docs` and
`entries` array fields, as read by `fetchBooks`. -/
structure SearchResponse where
  docs : Option (List Book)
  entries : Option (List Book)
deriving DecidableEq

/-- The URL built by `fetchBooks` for a non-empty search string:
the author-search endpoint for mode `authors`, otherwise the book-search
endpoint keyed by the mode name, with the search string percent-encoded
and the page number appended. -/
def searchUrl (queryType : QueryType) (search : String) (page : Nat) :
    String :=
  if queryType = QueryType.authors then
    "https://openlibrary.org/search/authors.json?q=" ++
      encodeURIComponent search
  else
    "https://openlibrary.org/search.json?" ++ queryTypeName queryType ++
      "=" ++ encodeURIComponent search ++ "&page=" ++ Nat.repr page

/-- `res.data.docs ?? res.data.entries ?? []`: the `docs` array when
present, else the `entries` array when present, else the empty list. -/
def extractResults (r : SearchResponse) : List Book :=
  match r.docs with
  | some d => d
  | none =>
    match r.entries with
    | some e => e
    | none => []

/-- `fetchBooks` of datafetching.tsx, with the HTTP GET made explicit as
an oracle `http`.  Returns the result list together with the list of URLs
requested.  An empty search string (falsy in `if (!search) return []`)
yields `[]` without any request. -/
def fetchBooks (queryType : QueryType) (search : String) (page : Nat)
    (http : String → SearchResponse) : List Book × List String :=
  if search = "" then ([], [])
  else
    let url := searchUrl queryType search page
    (extractResults (http url), [url])

/-- Cover URL of a search card (`BookCard`): `book.cover_i` is tested for
truthiness, so `0` and absence both fall back to the placeholder. -/
def bookCardCoverUrl (b : Book) : String :=
  match b.cover_i with
  | some n =>
    if n = 0 then "https://via.placeholder.com/200x300?text=No+Cover"
    else "https://covers.openlibrary.org/b/id/" ++ Nat.repr n ++ "-M.jpg"
  | none => "https://via.placeholder.com/200x300?text=No+Cover"

/-- JavaScript `key.split('/')` for a single-character separator:
splits at every occurrence, keeping empty segments, and yields `[""]`
on the empty string. -/
def jsSplit (sep : Char) : List Char → List (List Char)
  | [] => [[]]
  | c :: rest =>
    match jsSplit sep rest with
    | [] => [[]]
    | h :: t => if c = sep then [] :: h :: t else (c :: h) :: t

/-- `book.key.split('/').pop()` of `BookCard`: the last `'/'`-separated
segment of the key. -/
def workId (key : String) : String :=
  String.mk ((jsSplit '/' key.data).getLastD [])

/-- The detail-page link target of a search card: `/book/${workId}`. -/
def bookLinkHref (b : Book) : String := "/book/" ++ workId b.key

/-- The status messages the search view renders, in order: the loading
text when loading, the failure text when errored, and the no-results text
when the resolved data is an empty list and neither flag is set
(`data?.length === 0 && !isLoading && !isError`). -/
def searchStatusMessages (isLoading isError : Bool)
    (data : Option (List Book)) : List String :=
  (if isLoading then ["Loading books..."] else []) ++
  (if isError then ["Failed to fetch books. Please try again."] else []) ++
  (if data = some [] && !isLoading && !isError then
    ["No books found. Try a different search term."] else [])

/-- The cards the search view renders: `data?.slice(0, 15)`. -/
def renderedCards (data : Option (List Book)) : List Book :=
  match data with
  | some l => l.take 15
  | none => []

/-- A description or biography field as it arrives from the upstream API:
either a plain string or an object wrapping an optional `value` string
(the shape the detail page probes with `typeof ... === 'string'`). -/
inductive DescField where
  | str (s : String)
  | wrapper (value : Option String)
deriving DecidableEq

/-- An author reference inside a work record:
`{ author: { key: string } }`. -/
structure AuthorKeyRef where
  key : String
deriving DecidableEq

/-- One element of `BookDetails.authors`. -/
structure AuthorRef where
  author : AuthorKeyRef
deriving DecidableEq

/-- A language reference inside a work record: `{ key: string }`. -/
structure LanguageRef where
  key : String
deriving DecidableEq

/-- The `BookDetails` type of the detail page.  `description` is typed
`string` in the source but probed at runtime for the string-or-wrapper
shape, so it is modelled as an optional `DescField`. -/
structure BookDetails where
  key : String
  title : String
  covers : Option (List Nat)
  description : Option DescField
  first_publish_date : Option String
  subjects : Option (List String)
  subject_places : Option (List String)
  subject_times : Option (List String)
  authors : Option (List AuthorRef)
  number_of_pages : Option Nat
  publishers : Option (List String)
  publish_places : Option (List String)
  isbn_10 : Option (List String)
  isbn_13 : Option (List String)
  physical_format : Option String
  languages : Option (List LanguageRef)
deriving DecidableEq

/-- The `Author` type of the detail page; `bio` has the same
string-or-wrapper runtime shape as `description`. -/
structure Author where
  name : String
  birth_date : Option String
  death_date : Option String
  bio : Option DescField
deriving DecidableEq

/-- The author-lookup URL for one reference:
`https://openlibrary.org${author.key}.json`. -/
def authorEndpoint (r : AuthorRef) : String :=
  "https://openlibrary.org" ++ r.author.key ++ ".json"

/-- `Promise.all` over settled results: resolves to the list of values
when every promise resolves, rejects as soon as any rejects. -/
def promiseAll {α : Type} : List (Except String α) → Except String (List α)
  | [] => Except.ok []
  | x :: xs =>
    match x with
    | Except.error e => Except.error e
    | Except.ok a =>
      match promiseAll xs with
      | Except.error e => Except.error e
      | Except.ok rest => Except.ok (a :: rest)

/-- Whether an `Except` result is a success. -/
def exceptOk {α : Type} : Except String α → Bool
  | Except.ok _ => true
  | Except.error _ => false

/-- The author query's `queryFn`: `if (!book?.authors) return []`, else
one lookup per reference, awaited together with `Promise.all`.  Returns
the aggregate result and the list of URLs requested. -/
def authorQueryFn (book : Option BookDetails)
    (fetch : String → Except String Author) :
    Except String (List Author) × List String :=
  match book.bind BookDetails.authors with
  | none => (Except.ok [], [])
  | some refs =>
    (promiseAll (refs.map fun r => fetch (authorEndpoint r)),
     refs.map authorEndpoint)

/-- The author query's `enabled` flag: `!!book?.authors`. -/
def authorQueryEnabled (book : Option BookDetails) : Bool :=
  (book.bind BookDetails.authors).isSome

/-- The author query as gated by `enabled`: `none` when the query never
runs (its data stays `undefined`), otherwise the `queryFn` outcome. -/
def authorQueryData (book : Option BookDetails)
    (fetch : String → Except String Author) :
    Option (Except String (List Author) × List String) :=
  if authorQueryEnabled book then some (authorQueryFn book fetch)
  else none

/-- What the detail page renders at top level. -/
inductive DetailView where
  | loading (message : String)
  | notFound (message : String) (linkText : String) (linkHref : String)
  | content (showsAuthors : Bool)
deriving DecidableEq

/-- `authors && authors.length > 0`: whether the by-line of author names
is rendered. -/
def authorsShown (authors : Option (List Author)) : Bool :=
  match authors with
  | some l => decide (0 < l.length)
  | none => false

/-- The detail page's top-level branching: the loading screen while
either query loads, the not-found screen (with its return link) when the
book data is absent, else the content. -/
def detailView (bookLoading authorsLoading : Bool)
    (book : Option BookDetails) (authors : Option (List Author)) :
    DetailView :=
  if bookLoading || authorsLoading then
    DetailView.loading "Loading book details..."
  else
    match book with
    | none => DetailView.notFound "Book not found" "Return to search" "/"
    | some _ => DetailView.content (authorsShown authors)

/-- Cover URL of the detail page: `book.covers?.[0]` tested for
truthiness, so a first identifier of `0`, an empty array and an absent
array all fall back to the placeholder. -/
def bookPageCoverUrl (bk : BookDetails) : String :=
  match bk.covers.bind List.head? with
  | some n =>
    if n = 0 then "https://via.placeholder.com/400x600?text=No+Cover"
    else "https://covers.openlibrary.org/b/id/" ++ Nat.repr n ++ "-L.jpg"
  | none => "https://via.placeholder.com/400x600?text=No+Cover"

/-- The description text the detail page renders: nothing when the field
is absent or a falsy (empty) string; the string itself when it is a
truthy plain string; the wrapped value, or the fallback when that value
is falsy or missing, when it is a wrapper object. -/
def renderDescription (d : Option DescField) : Option String :=
  match d with
  | none => none
  | some (DescField.str s) => if s = "" then none else some s
  | some (DescField.wrapper v) =>
    some (match v with
      | some w => if w = "" then "No description available" else w
      | none => "No description available")

/-- The biography text the detail page renders for one author, with the
same guard and fallback shape as the description. -/
def renderBio (d : Option DescField) : Option String :=
  match d with
  | none => none
  | some (DescField.str s) => if s = "" then none else some s
  | some (DescField.wrapper v) =>
    some (match v with
      | some w => if w = "" then "No biography available" else w
      | none => "No biography available")

/-- Whether a detail view is the loading screen. -/
def isLoadingView : DetailView → Bool
  | DetailView.loading _ => true
  | _ => false

/-- A concrete search result used to instantiate the theorems below. -/
def sampleSummary : Book :=
  { key := "/works/OL45883W", title := some "The Hobbit", name := none,
    author_name := some ["J. R. R. Tolkien"],
    first_publish_year := some 1937, cover_i := some 6979861,
    language := none, publisher := none, number_of_pages_median := none,
    isbn := none }

/-- A search result whose cover identifier is the falsy number `0`. -/
def zeroCoverSummary : Book := { sampleSummary with cover_i := some 0 }

/-- Two concrete author references. -/
def sampleRefs : List AuthorRef :=
  [⟨⟨"/authors/OL26320A"⟩⟩, ⟨⟨"/authors/OL2162284A"⟩⟩]

/-- A concrete work record with every optional field absent. -/
def emptyDetails : BookDetails :=
  { key := "/works/OL45883W", title := "The Hobbit", covers := none,
    description := none, first_publish_date := none, subjects := none,
    subject_places := none, subject_times := none, authors := none,
    number_of_pages := none, publishers := none, publish_places := none,
    isbn_10 := none, isbn_13 := none, physical_format := none,
    languages := none }

/-- A work record referencing two authors. -/
def twoAuthorDetails : BookDetails :=
  { emptyDetails with authors := some sampleRefs }

/-- A work record whose author-reference list is present but empty. -/
def noRefListDetails : BookDetails :=
  { emptyDetails with authors := some [] }

/-- A work record with one cover identifier. -/
def coverDetails : BookDetails :=
  { emptyDetails with covers := some [6979861] }

/-- A concrete author record. -/
def sampleAuthor : Author := ⟨"J. R. R. Tolkien", none, none, none⟩

/-! ## Helper lemmas -/

theorem promiseAll_ok_iff {α : Type} (l : List (Except String α)) :
    exceptOk (promiseAll l) = true ↔ ∀ x ∈ l, exceptOk x = true := by
  induction l with
  | nil => simp [promiseAll, exceptOk]
  | cons x xs ih =>
    cases x with
    | error e => simp [promiseAll, exceptOk]
    | ok a =>
      cases h : promiseAll xs with
      | error e =>
        rw [h] at ih
        simp [promiseAll, h, exceptOk] at ih ⊢
        exact ih
      | ok rest =>
        rw [h] at ih
        simp [promiseAll, h, exceptOk] at ih ⊢
        exact ih

theorem promiseAll_ok_length {α : Type} (l : List (Except String α))
    (r : List α) (h : promiseAll l = Except.ok r) : r.length = l.length := by
  induction l generalizing r with
  | nil =>
    simp [promiseAll] at h
    simp [h.symm]
  | cons x xs ih =>
    cases x with
    | error e => simp [promiseAll] at h
    | ok a =>
      cases hx : promiseAll xs with
      | error e => rw [promiseAll, hx] at h; exact absurd h (by simp)
      | ok rest =>
        rw [promiseAll, hx] at h
        have hr : r = a :: rest := by
          have := h
          injection this with this
          exact this.symm
        subst hr
        simp [ih rest hx]

/-! ## Claims -/

/-- C1: for a non-empty search string and any query mode, `fetchBooks`
requests exactly one URL; for mode `authors` it is the author-search
endpoint followed by the percent-encoded search string, and for the
other three modes it is the book-search endpoint followed by the mode
name, `=`, the percent-encoded search string, and `&page=` with the
page number. -/
theorem c1_search_url_builder (m : QueryType) (s : String) (page : Nat)
    (h : s ≠ "") :
    (∀ http, (fetchBooks m s page http).2 = [searchUrl m s page]) ∧
    (m = QueryType.authors →
      searchUrl m s page =
        "https://openlibrary.org/search/authors.json?q=" ++
          encodeURIComponent s) ∧
    (m ≠ QueryType.authors →
      searchUrl m s page =
        "https://openlibrary.org/search.json?" ++ queryTypeName m ++ "=" ++
          encodeURIComponent s ++ "&page=" ++ Nat.repr page) := by
  refine ⟨fun http => ?_, fun hm => ?_, fun hm => ?_⟩
  · simp [fetchBooks, h]
  · simp [searchUrl, hm]
  · simp [searchUrl, hm]

/-- Witness for C1 at concrete inputs, including a percent-encoded
space. -/
theorem c1_search_url_builder_witness :
    searchUrl QueryType.title "hobbit" 1 =
      "https://openlibrary.org/search.json?title=hobbit&page=1" ∧
    searchUrl QueryType.authors "a b" 1 =
      "https://openlibrary.org/search/authors.json?q=a%20b" ∧
    (fetchBooks QueryType.title "hobbit" 1 fun _ => ⟨none, none⟩).2 =
      ["https://openlibrary.org/search.json?title=hobbit&page=1"] := by
  have h1 := c1_search_url_builder QueryType.title "hobbit" 1 (by decide)
  have h2 := c1_search_url_builder QueryType.authors "a b" 1 (by decide)
  refine ⟨(h1.2.2 (by decide)).trans (by decide),
    (h2.2.1 rfl).trans (by decide), (h1.1 _).trans ?_⟩
  decide

/-- C2: for every query mode and page, an empty search string makes
`fetchBooks` return the empty result list while requesting no URL. -/
theorem c2_empty_search (m : QueryType) (page : Nat)
    (http : String → SearchResponse) :
    fetchBooks m "" page http = ([], []) := by
  simp [fetchBooks]

/-- C9: `fetchBooks` totalizes a successful response body: the `docs`
array when present, otherwise the `entries` array when present,
otherwise the empty list. -/
theorem c9_extract_total (r : SearchResponse) :
    (∀ d, r.docs = some d → extractResults r = d) ∧
    (r.docs = none → ∀ e, r.entries = some e → extractResults r = e) ∧
    (r.docs = none → r.entries = none → extractResults r = []) := by
  obtain ⟨docs, entries⟩ := r
  refine ⟨?_, ?_, ?_⟩
  · rintro d rfl; rfl
  · rintro rfl e rfl; rfl
  · rintro rfl rfl; rfl

/-- Witness for C9 on the three response shapes. -/
theorem c9_extract_total_witness :
    extractResults ⟨some [sampleSummary], none⟩ = [sampleSummary] ∧
    extractResults ⟨none, some [sampleSummary]⟩ = [sampleSummary] ∧
    extractResults ⟨none, none⟩ = [] :=
  ⟨(c9_extract_total _).1 _ rfl, (c9_extract_total _).2.1 rfl _ rfl,
   (c9_extract_total _).2.2 rfl rfl⟩

theorem jsSplit_ne_nil (sep : Char) (l : List Char) : jsSplit sep l ≠ [] := by
  cases l with
  | nil => simp [jsSplit]
  | cons c rest =>
    cases h : jsSplit sep rest with
    | nil => simp [jsSplit, h]
    | cons hd tl =>
      simp only [jsSplit, h]
      split <;> simp

theorem jsSplit_no_sep (sep : Char) (l : List Char) (h : sep ∉ l) :
    jsSplit sep l = [l] := by
  induction l with
  | nil => rfl
  | cons c rest ih =>
    have hc : c ≠ sep := fun hcs => h (hcs ▸ List.mem_cons_self c rest)
    have hrest : sep ∉ rest := fun hs => h (List.mem_cons_of_mem c hs)
    simp [jsSplit, ih hrest, hc]

theorem jsSplit_two_le_of_mem (sep : Char) (l : List Char) (h : sep ∈ l) :
    2 ≤ (jsSplit sep l).length := by
  induction l with
  | nil => simp at h
  | cons c rest ih =>
    cases hr : jsSplit sep rest with
    | nil => exact absurd hr (jsSplit_ne_nil sep rest)
    | cons hd tl =>
      by_cases hc : c = sep
      · simp [jsSplit, hr, hc]
      · have hmem : sep ∈ rest := by
          rcases List.mem_cons.mp h with h1 | h1
          · exact absurd h1.symm hc
          · exact h1
        have := ih hmem
        rw [hr] at this
        simp only [jsSplit, hr, if_neg hc, List.length_cons] at this ⊢
        omega

theorem jsSplit_cons_eq (sep c : Char) (rest : List Char) :
    jsSplit sep (c :: rest) =
      match jsSplit sep rest with
      | [] => [[]]
      | h :: t => if c = sep then [] :: h :: t else (c :: h) :: t := rfl

theorem jsSplit_ends_sep (sep : Char) (xs : List Char) :
    (jsSplit sep (xs ++ [sep])).getLastD [] = [] := by
  induction xs with
  | nil => simp [jsSplit]
  | cons x xs ih =>
    cases hr : jsSplit sep (xs ++ [sep]) with
    | nil => exact absurd hr (jsSplit_ne_nil sep (xs ++ [sep]))
    | cons hd tl =>
      have h2 : 2 ≤ (jsSplit sep (xs ++ [sep])).length :=
        jsSplit_two_le_of_mem sep (xs ++ [sep]) (by simp)
      rw [hr] at h2 ih
      cases tl with
      | nil => simp at h2
      | cons h2d t2 =>
        have hlast : (h2d :: t2).getLastD hd = [] := by
          simpa [List.getLastD_cons] using ih
        rw [List.cons_append, jsSplit_cons_eq, hr]
        by_cases hc : x = sep <;>
          simp [hc, List.getLastD_cons] <;>
          simpa [List.getLastD_cons] using hlast

/-- C10: the detail-page link target is `/book/` followed by the last
`'/'`-separated segment of the book's key; a key with no `'/'` yields
the whole key, and a key ending in `'/'` yields the empty segment. -/
theorem c10_link_target (b : Book) (key : String) :
    bookLinkHref b = "/book/" ++ workId b.key ∧
    ('/' ∉ key.data → workId key = key) ∧
    (∀ xs, key.data = xs ++ ['/'] → workId key = "") := by
  refine ⟨rfl, fun h => ?_, fun xs h => ?_⟩
  · show String.mk ((jsSplit '/' key.data).getLastD []) = key
    rw [jsSplit_no_sep _ _ h]
    cases key
    rfl
  · show String.mk ((jsSplit '/' key.data).getLastD []) = ""
    rw [h, jsSplit_ends_sep]

/-- Witness for C10: a key with a slash, one without, and one ending in
a slash. -/
theorem c10_link_target_witness :
    bookLinkHref sampleSummary = "/book/" ++ workId sampleSummary.key ∧
    workId "OL45883W" = "OL45883W" ∧
    workId "works/" = "" := by
  refine ⟨(c10_link_target sampleSummary "x").1, ?_, ?_⟩
  · exact (c10_link_target sampleSummary "OL45883W").2.1 (by decide)
  · exact (c10_link_target sampleSummary "works/").2.2 "works".data
      (by decide)

/-- C4: the card grid renders `data.slice(0, 15)`: at most 15 cards,
whose length is `min 15` the result length and whose entries agree with
the result list's first entries in order. -/
theorem c4_card_cap (l : List Book) :
    (renderedCards (some l)).length ≤ 15 ∧
    (renderedCards (some l)).length = min 15 l.length ∧
    (∀ i, i < 15 → (renderedCards (some l))[i]? = l[i]?) := by
  refine ⟨?_, ?_, fun i hi => ?_⟩
  · simp [renderedCards]
  · simp [renderedCards]
  · simp only [renderedCards]
    exact List.getElem?_take_of_lt hi

/-- Witness for C4 on a 20-element result list. -/
theorem c4_card_cap_witness :
    (renderedCards (some (List.replicate 20 sampleSummary))).length ≤ 15 ∧
    (renderedCards (some (List.replicate 20 sampleSummary)))[0]? =
      (List.replicate 20 sampleSummary)[0]? := by
  have h := c4_card_cap (List.replicate 20 sampleSummary)
  exact ⟨h.1, h.2.2 0 (by decide)⟩

/-- C5: with `N` author references present, the author query requests
exactly the `N` endpoints named by the references' keys, succeeds
exactly when every lookup succeeds, and any success carries one author
per reference (no partial list survives a failure). -/
theorem c5_author_fanout (bk : BookDetails) (refs : List AuthorRef)
    (fetch : String → Except String Author) (h : bk.authors = some refs) :
    (authorQueryFn (some bk) fetch).2 = refs.map authorEndpoint ∧
    (authorQueryFn (some bk) fetch).2.length = refs.length ∧
    (exceptOk (authorQueryFn (some bk) fetch).1 = true ↔
      ∀ r ∈ refs, exceptOk (fetch (authorEndpoint r)) = true) ∧
    (∀ l, (authorQueryFn (some bk) fetch).1 = Except.ok l →
      l.length = refs.length) := by
  have hq : authorQueryFn (some bk) fetch =
      (promiseAll (refs.map fun r => fetch (authorEndpoint r)),
       refs.map authorEndpoint) := by
    simp [authorQueryFn, h]
  rw [hq]
  refine ⟨rfl, by simp, ?_, ?_⟩
  · rw [promiseAll_ok_iff]
    constructor
    · intro hall r hr
      exact hall _ (List.mem_map_of_mem _ hr)
    · intro hall x hx
      obtain ⟨r, hr, rfl⟩ := List.mem_map.mp hx
      exact hall r hr
  · intro l hl
    have := promiseAll_ok_length _ _ hl
    simpa using this

/-- Witness for C5: two references produce exactly two lookups, and an
all-successful oracle yields a success. -/
theorem c5_author_fanout_witness :
    (authorQueryFn (some twoAuthorDetails)
        fun _ => Except.ok sampleAuthor).2 =
      ["https://openlibrary.org/authors/OL26320A.json",
       "https://openlibrary.org/authors/OL2162284A.json"] ∧
    exceptOk (authorQueryFn (some twoAuthorDetails)
        fun _ => Except.ok sampleAuthor).1 = true := by
  have h := c5_author_fanout twoAuthorDetails sampleRefs
    (fun _ => Except.ok sampleAuthor) rfl
  refine ⟨h.1.trans (by decide), ?_⟩
  exact h.2.2.1.mpr fun r hr => rfl

/-- C6: the author query is disabled while the primary record is
unresolved and when the resolved record has no `authors` field, so no
lookup is issued; with an empty reference list it runs, requests
nothing, and resolves to the empty author list. -/
theorem c6_author_query_gating (fetch : String → Except String Author)
    (bk : BookDetails) :
    authorQueryData none fetch = none ∧
    (bk.authors = none → authorQueryData (some bk) fetch = none) ∧
    (bk.authors = some [] →
      authorQueryData (some bk) fetch = some (Except.ok [], [])) := by
  refine ⟨rfl, fun h => ?_, fun h => ?_⟩
  · simp [authorQueryData, authorQueryEnabled, h]
  · simp [authorQueryData, authorQueryEnabled, authorQueryFn, h,
      promiseAll]

/-- Witness for C6 on a record without the `authors` field and a record
with an empty reference list. -/
theorem c6_author_query_gating_witness :
    authorQueryData (some emptyDetails)
      (fun _ => Except.ok sampleAuthor) = none ∧
    authorQueryData (some noRefListDetails)
      (fun _ => Except.ok sampleAuthor) = some (Except.ok [], []) := by
  have h := c6_author_query_gating (fun _ => Except.ok sampleAuthor)
    emptyDetails
  have h2 := c6_author_query_gating (fun _ => Except.ok sampleAuthor)
    noRefListDetails
  exact ⟨h.2.1 rfl, h2.2.2 rfl⟩

/-- C3 counterexample: when the description (or biography) field is
absent, the detail page renders no text at all, not the fixed fallback
message. -/
theorem c3_absent_field_counterexample :
    renderDescription none = none ∧
    renderDescription none ≠ some "No description available" ∧
    renderBio none = none ∧
    renderBio none ≠ some "No biography available" :=
  ⟨rfl, by decide, rfl, by decide⟩

/-- C3 amended: a truthy plain string renders as itself; a wrapper
renders its value, or the fixed fallback when the value is missing or
empty; an absent field (or an empty plain string, falsy in the guard)
renders nothing. -/
theorem c3_description_normalization (s v : String) :
    (s ≠ "" →
      renderDescription (some (DescField.str s)) = some s ∧
      renderBio (some (DescField.str s)) = some s) ∧
    (v ≠ "" →
      renderDescription (some (DescField.wrapper (some v))) = some v ∧
      renderBio (some (DescField.wrapper (some v))) = some v) ∧
    renderDescription (some (DescField.wrapper none)) =
      some "No description available" ∧
    renderBio (some (DescField.wrapper none)) =
      some "No biography available" ∧
    renderDescription (some (DescField.wrapper (some ""))) =
      some "No description available" ∧
    renderBio (some (DescField.wrapper (some ""))) =
      some "No biography available" ∧
    renderDescription none = none ∧
    renderBio none = none ∧
    renderDescription (some (DescField.str "")) = none ∧
    renderBio (some (DescField.str "")) = none := by
  refine ⟨fun h => ⟨?_, ?_⟩, fun h => ⟨?_, ?_⟩, by decide, by decide,
    by decide, by decide, rfl, rfl, by decide, by decide⟩ <;>
    simp [renderDescription, renderBio, h]

/-- Witness for C3 on concrete nonempty strings. -/
theorem c3_description_normalization_witness :
    renderDescription (some (DescField.str "A hobbit tale.")) =
      some "A hobbit tale." ∧
    renderBio (some (DescField.wrapper (some "Wrote epics."))) =
      some "Wrote epics." := by
  have h := c3_description_normalization "A hobbit tale." "Wrote epics."
  exact ⟨(h.1 (by decide)).1, (h.2.1 (by decide)).2⟩

/-- C7 counterexample: when the aggregate author fetch has failed (its
data absent, nothing loading) but the primary record resolved, the
detail page renders the content without authors, not the not-found
screen. -/
theorem c7_aggregate_failure_counterexample :
    detailView false false (some emptyDetails) none =
      DetailView.content false ∧
    detailView false false (some emptyDetails) none ≠
      DetailView.notFound "Book not found" "Return to search" "/" :=
  ⟨rfl, by decide⟩

/-- C7 amended: the views distinguish only loading and failure: the
loading screen shows exactly while either flag is set; a failed search
fetch renders the static failure message; a failed primary detail fetch
renders the static not-found message with the return link; a failed
aggregate author fetch leaves the content rendered without authors. -/
theorem c7_failure_states (isLoading : Bool) (data : Option (List Book))
    (bk : BookDetails) (book : Option BookDetails)
    (authors : Option (List Author)) (bl al : Bool) :
    "Failed to fetch books. Please try again." ∈
      searchStatusMessages isLoading true data ∧
    detailView false false none authors =
      DetailView.notFound "Book not found" "Return to search" "/" ∧
    detailView false false (some bk) none = DetailView.content false ∧
    isLoadingView (detailView bl al book authors) = (bl || al) := by
  refine ⟨?_, rfl, rfl, ?_⟩
  · simp [searchStatusMessages]
  · cases bl <;> cases al <;> cases book <;>
      simp [detailView, isLoadingView]

/-- Witness for C7 at concrete render states. -/
theorem c7_failure_states_witness :
    "Failed to fetch books. Please try again." ∈
      searchStatusMessages false true (some []) ∧
    detailView false false (some emptyDetails) none =
      DetailView.content false :=
  ⟨(c7_failure_states false (some []) emptyDetails none none
      false false).1,
   (c7_failure_states false (some []) emptyDetails none none
      false false).2.2.1⟩

/-- C8 counterexample: a present cover identifier of `0` is falsy, so
the card shows the placeholder, not the URL built from the
identifier. -/
theorem c8_zero_cover_counterexample :
    bookCardCoverUrl zeroCoverSummary =
      "https://via.placeholder.com/200x300?text=No+Cover" ∧
    bookCardCoverUrl zeroCoverSummary ≠
      "https://covers.openlibrary.org/b/id/0-M.jpg" :=
  ⟨rfl, by decide⟩

/-- C8 amended: a present non-zero cover identifier yields the size-M
URL on a card and, as first element of `covers`, the size-L URL on the
detail page; an absent identifier — or the falsy identifier `0`, which
the truthiness test conflates with absence — yields the fixed
placeholder. -/
theorem c8_cover_urls (n : Nat) (rest : List Nat) (b : Book)
    (bk : BookDetails) (h : n ≠ 0) :
    (b.cover_i = some n → bookCardCoverUrl b =
      "https://covers.openlibrary.org/b/id/" ++ Nat.repr n ++ "-M.jpg") ∧
    (b.cover_i = none → bookCardCoverUrl b =
      "https://via.placeholder.com/200x300?text=No+Cover") ∧
    (b.cover_i = some 0 → bookCardCoverUrl b =
      "https://via.placeholder.com/200x300?text=No+Cover") ∧
    (bk.covers = some (n :: rest) → bookPageCoverUrl bk =
      "https://covers.openlibrary.org/b/id/" ++ Nat.repr n ++ "-L.jpg") ∧
    (bk.covers = none ∨ bk.covers = some [] ∨ bk.covers = some (0 :: rest) →
      bookPageCoverUrl bk =
        "https://via.placeholder.com/400x600?text=No+Cover") := by
  refine ⟨fun hb => ?_, fun hb => ?_, fun hb => ?_, fun hb => ?_,
    fun hb => ?_⟩
  · simp [bookCardCoverUrl, hb, h]
  · simp [bookCardCoverUrl, hb]
  · simp [bookCardCoverUrl, hb]
  · simp [bookPageCoverUrl, hb, h]
  · rcases hb with hb | hb | hb <;> simp [bookPageCoverUrl, hb]

/-- Witness for C8 on a concrete non-zero identifier. -/
theorem c8_cover_urls_witness :
    bookCardCoverUrl sampleSummary =
      "https://covers.openlibrary.org/b/id/6979861-M.jpg" ∧
    bookPageCoverUrl coverDetails =
      "https://covers.openlibrary.org/b/id/6979861-L.jpg" := by
  have h := c8_cover_urls 6979861 [] sampleSummary coverDetails (by decide)
  exact ⟨(h.1 rfl).trans (by decide), (h.2.2.2.1 rfl).trans (by decide)⟩

end LibrarySearch
